import Mathlib

/-!
Verification of the Alpha-Omega analysis and policy-evaluation pipeline.

Shallow embedding of the two engines of the repository:
  - `omega/analyze.py` (class `AnalysisRunner`): container execution,
    output-file location, and the twelve assertion-generation invocations;
  - `frontend/oaffe/utils/policy.py` (`refresh_policies`): per-subject policy
    refresh, status normalization, and the result store reconciliation.

External collaborators (subprocesses, the JSON decoder, `fnmatch`, the Django
object store) are modelled by explicit parameters or by small executable
functions mirroring their documented semantics, so that every definition can
be evaluated on concrete inputs.
-/

namespace AlphaOmega

/-- Model of the Python string method `.lower()` on the relevant (ASCII)
alphabet: lower-cases every character. -/
def pyLower (s : String) : String :=
  String.mk (s.data.map Char.toLower)

/-- Model of the Python string method `.strip()`: removes whitespace from
both ends of the string. -/
def pyStrip (s : String) : String :=
  String.mk (((s.data.dropWhile Char.isWhitespace).reverse.dropWhile Char.isWhitespace).reverse)

/-- The four status choices of a `PolicyEvaluationResult`, exactly the four
values assigned by `refresh_policies` (policy.py lines 70-78). -/
inductive Status
  | PASSED
  | FAILED
  | INDETERMINATE
  | UNKNOWN
deriving DecidableEq, Repr

/-- policy.py lines 70-78: `_status = result.get("state", "").lower().strip()`
followed by the four-way branch on `_status`.  The argument is the raw value
of the `state` key of one parsed result object; `none` models an absent key,
for which `result.get("state", "")` yields the empty string. -/
def normalizeStatus (state : Option String) : Status :=
  let s := pyStrip (pyLower (state.getD ""))
  if s = "pass" then Status.PASSED
  else if s = "fail" ∨ s = "failed" then Status.FAILED
  else if s ≠ "" then Status.INDETERMINATE
  else Status.UNKNOWN

/-- One row of the `PolicyEvaluationResult` table, with the four fields used
by `refresh_policies` (the fields that form the `update_or_create` key). -/
structure PolicyEvaluationResult where
  policy : String
  subject : String
  status : Status
  evaluated_by : String
deriving DecidableEq, Repr

/-- policy.py line 80: the fixed evaluator identifier. -/
def evaluatedBy : String := "org.openssf.alpha-omega.oaf"

/-- One element of the JSON array printed by the policy evaluator
(policy.py lines 62-64): `result.get("policy_identifier")`,
`result.get("policy_name")` and `result.get("state")`.  The `state` key may
be absent (`none`). -/
structure RawResult where
  policy_identifier : String
  policy_name : String
  state : Option String
deriving DecidableEq, Repr

/-- policy.py lines 89-91:
`PolicyEvaluationResult.objects.update_or_create(policy=..., subject=...,
status=..., evaluated_by=...)` with every field in the lookup key and no
defaults: if a row with this exact key exists the store is unchanged,
otherwise the row is created. -/
def update_or_create (store : List PolicyEvaluationResult)
    (r : PolicyEvaluationResult) : List PolicyEvaluationResult :=
  if r ∈ store then store else store ++ [r]

/-- policy.py line 87:
`PolicyEvaluationResult.objects.filter(subject=subject).delete()`. -/
def deleteForSubject (store : List PolicyEvaluationResult) (subject : String) :
    List PolicyEvaluationResult :=
  store.filter (fun r => r.subject ≠ subject)

/-- policy.py lines 66-68: `Policy.objects.get_or_create(identifier=...,
defaults={"name": ...})` over the `Policy` table modelled as a list of
(identifier, name) pairs; the name is set only on creation. -/
def get_or_create (policies : List (String × String)) (identifier name : String) :
    List (String × String) :=
  if policies.any (fun p => p.1 = identifier) then policies
  else policies ++ [(identifier, name)]

/-- The persisted state touched by one refresh pass: the `Policy` table and
the `PolicyEvaluationResult` table. -/
structure RefreshState where
  policies : List (String × String)
  results : List PolicyEvaluationResult
deriving DecidableEq, Repr

/-- policy.py lines 62-91, one iteration of `for result in results`: the
get-or-create of the policy, the status normalization, the once-per-pass
clear (guarded by `clear_first and not already_cleared`), and the upsert.
The `Bool` component threads the `already_cleared` flag. -/
def processResult (clear_first : Bool) (subject : String)
    (st : RefreshState × Bool) (r : RawResult) : RefreshState × Bool :=
  let state := st.1
  let already_cleared := st.2
  let policies := get_or_create state.policies r.policy_identifier r.policy_name
  let row : PolicyEvaluationResult :=
    ⟨r.policy_identifier, subject, normalizeStatus r.state, evaluatedBy⟩
  if clear_first && !already_cleared then
    (⟨policies, update_or_create (deleteForSubject state.results subject) row⟩, true)
  else
    (⟨policies, update_or_create state.results row⟩, already_cleared)

/-- policy.py lines 60-91: the whole `for result in results` loop, starting
from `already_cleared = False`. -/
def processResults (clear_first : Bool) (subject : String)
    (results : List RawResult) (st : RefreshState) : RefreshState :=
  (results.foldl (processResult clear_first subject) (st, false)).1

/-- One iteration of the result loop with the clear step removed: only the
policy get-or-create and the upsert. -/
def processResultNoClear (subject : String) (state : RefreshState)
    (r : RawResult) : RefreshState :=
  ⟨get_or_create state.policies r.policy_identifier r.policy_name,
   update_or_create state.results
     ⟨r.policy_identifier, subject, normalizeStatus r.state, evaluatedBy⟩⟩

/-- The result loop with the clear step removed. -/
def processResultsNoClear (subject : String) (results : List RawResult)
    (st : RefreshState) : RefreshState :=
  results.foldl (processResultNoClear subject) st

/-- Modelled from the spec: the `subject_type` enum of `Subject`
(`oaffe/models.py` is not part of the analysed sources); the spec states that
only the package-URL type is processed and every other type is rejected with
a warning. -/
inductive SubjectType
  | PACKAGE_URL
  | OTHER
deriving DecidableEq, Repr

/-- A `Subject` row as used by `refresh_policies`: its identifier and its
type. -/
structure Subject where
  identifier : String
  subject_type : SubjectType
deriving DecidableEq, Repr

/-- Outcome of the policy-evaluator subprocess call (policy.py lines 37-51):
either `subprocess.run` completes and yields a `CompletedProcess` with a
return code, stdout and stderr, or it raises `subprocess.TimeoutExpired`
after the 2-hour timeout. -/
inductive EvalOutcome
  | completed (returncode : Int) (stdout : String) (stderr : String)
  | timeout
deriving DecidableEq, Repr

/-- A Python exception escaping `refresh_policies`. -/
inductive PyError
  | attributeError (msg : String)
deriving DecidableEq, Repr

/-- policy.py lines 22-100, the single-subject branch of `refresh_policies`.
Parameters: `parseResults` models `json.loads` on the evaluator stdout
(`none` = raises), `outcome` the evaluator subprocess outcome.  Returns the
warning-log lines emitted and either the updated store or the exception that
escapes.  In the `TimeoutExpired` handler the local `res` is still `None`
(the assignment on line 37 never happened), so line 99 `res.stdout` raises
`AttributeError` after line 98 logged the timeout. -/
def refresh_policies_single (parseResults : String → Option (List RawResult))
    (outcome : EvalOutcome) (clear_first : Bool) (subject : Subject)
    (st : RefreshState) : List String × Except PyError RefreshState :=
  if subject.subject_type ≠ SubjectType.PACKAGE_URL then
    (["Invalid subject type"], Except.ok st)
  else
    match outcome with
    | EvalOutcome.timeout =>
        (["Timeout evaluating assertion"],
         Except.error (PyError.attributeError "NoneType object has no attribute stdout"))
    | EvalOutcome.completed rc out _ =>
        if rc = 0 then
          match parseResults out with
          | none => (["Error parsing oaf output"], Except.ok st)
          | some results =>
              ([], Except.ok (processResults clear_first subject.identifier results st))
        else
          (["Error evaluating assertion"], Except.ok st)

/-- policy.py lines 16-20, the fan-out branch of `refresh_policies`: each
subject is refreshed in turn by a recursive call; an exception escaping one
call aborts the loop.  Returns the warning logs, the identifiers of the
subjects whose refresh was started, and the final store or the escaping
exception. -/
def refresh_policies_all (parseResults : String → Option (List RawResult))
    (outcomes : Subject → EvalOutcome) (clear_first : Bool) :
    List Subject → RefreshState → List String × List String × Except PyError RefreshState
  | [], st => ([], [], Except.ok st)
  | s :: rest, st =>
    match refresh_policies_single parseResults (outcomes s) clear_first s st with
    | (logs, Except.error e) => (logs, [s.identifier], Except.error e)
    | (logs, Except.ok st1) =>
        match refresh_policies_all parseResults outcomes clear_first rest st1 with
        | (logs1, done, res) => (logs ++ logs1, s.identifier :: done, res)

/-- analyze.py: `os.path.join(root, file)` for the paths produced by
`find_output_file` (one level of join). -/
def joinPath (root name : String) : String := root ++ "/" ++ name

/-- Model of `fnmatch.fnmatch(name, pat)` for patterns built from literal
characters and the wildcards star and question mark (the forms used by this
repository); implemented with a fuel argument large enough for the fuel
never to run out on the given inputs. -/
def globMatchFuel : Nat → List Char → List Char → Bool
  | 0, _, _ => false
  | fuel + 1, pat, s =>
    match pat, s with
    | [], [] => true
    | [], _ :: _ => false
    | '*' :: ps, [] => globMatchFuel fuel ps []
    | '*' :: ps, c :: cs =>
        globMatchFuel fuel ps (c :: cs) || globMatchFuel fuel ('*' :: ps) cs
    | '?' :: _, [] => false
    | '?' :: ps, _ :: cs => globMatchFuel fuel ps cs
    | _ :: _, [] => false
    | p :: ps, c :: cs => p == c && globMatchFuel fuel ps cs

/-- `fnmatch.fnmatch(name, pat)` (argument order as in the Python call). -/
def globMatch (name pat : String) : Bool :=
  globMatchFuel (pat.length + name.length + 1) pat.toList name.toList

/-- analyze.py lines 167-173, the first `os.walk` loop of
`find_output_file`: per directory, an exact-name hit returns immediately,
otherwise the first `fnmatch` hit in that directory returns; otherwise the
walk continues.  The tree is the `os.walk` enumeration: a list of
(root, files) pairs in traversal order; `fnm name pat` models
`fnmatch.fnmatch(name, pat)`. -/
def walkExactThenGlob (fnm : String → String → Bool) (filename : String) :
    List (String × List String) → Option String
  | [] => none
  | (root, files) :: rest =>
    if filename ∈ files then some (joinPath root filename)
    else
      match files.find? (fun f => fnm f filename) with
      | some f => some (joinPath root f)
      | none => walkExactThenGlob fnm filename rest

/-- analyze.py lines 175-177, the second `os.walk` loop of
`find_output_file`: exact-name hits only. -/
def walkExact (filename : String) :
    List (String × List String) → Option String
  | [] => none
  | (root, files) :: rest =>
    if filename ∈ files then some (joinPath root filename)
    else walkExact filename rest

/-- analyze.py lines 165-179, `find_output_file`: the combined
exact-then-glob walk, then the trailing exact-only walk, then `None`. -/
def find_output_file (fnm : String → String → Bool)
    (tree : List (String × List String)) (filename : String) : Option String :=
  match walkExactThenGlob fnm filename tree with
  | some p => some p
  | none =>
    match walkExact filename tree with
    | some p => some p
    | none => none

/-- `find_output_file` with the trailing second walk removed (the variant the
dead-code question compares against). -/
def find_output_file_single_walk (fnm : String → String → Bool)
    (tree : List (String × List String)) (filename : String) : Option String :=
  match walkExactThenGlob fnm filename tree with
  | some p => some p
  | none => none

/-- A directory entry of the walk contains a match for `filename`: an exact
name hit or an `fnmatch` hit. -/
def DirHasMatch (fnm : String → String → Bool) (filename : String)
    (e : String × List String) : Prop :=
  filename ∈ e.2 ∨ ∃ f ∈ e.2, fnm f filename = true

instance (fnm : String → String → Bool) (filename : String)
    (e : String × List String) : Decidable (DirHasMatch fnm filename e) := by
  unfold DirHasMatch
  infer_instance

/-- Behaviour of one external assertion-generation subprocess call inside
`_execute_assertion` (analyze.py lines 131-163): the call either finishes
with a return code (a non-zero code is only logged, `check=False`) or the
machinery raises an exception. -/
inductive Outcome
  | exits (returncode : Int)
  | raises (msg : String)
deriving DecidableEq, Repr

/-- Observable event of one dimension of `execute_assertions`: the dimension
was skipped before the external call (analyze.py lines 124-126), or the
external utility was invoked and exited with the given code, or the
invocation raised and `_execute_assertion_noexcept` caught and logged the
error (lines 128-129). -/
inductive AEvent
  | skipped (assertion : String)
  | invoked (assertion : String) (returncode : Int)
  | errorLogged (assertion : String) (msg : String)
deriving DecidableEq, Repr

/-- analyze.py lines 131-163, `_execute_assertion` reduced to its observable
effect: it performs the external call, which may raise; a non-zero return
code is logged and not raised. -/
def execute_assertion (oc : Outcome) (a : String) : Except String AEvent :=
  match oc with
  | Outcome.raises msg => Except.error msg
  | Outcome.exits rc => Except.ok (AEvent.invoked a rc)

/-- Python falsiness of the `input-file` value: `None` or the empty string. -/
def falsyFile : Option String → Bool
  | none => true
  | some s => s = ""

/-- analyze.py lines 122-129, `_execute_assertion_noexcept`: if the kwargs
contain an `input-file` key whose value is falsy, the assertion is skipped
(logged) before the external call; otherwise `_execute_assertion` runs and
any exception is caught and logged.  `inputFile = none` means the kwargs
carry no `input-file` key; `inputFile = some v` means the key is present
with value `v`. -/
def execute_assertion_noexcept (oc : Outcome) (a : String)
    (inputFile : Option (Option String)) : AEvent :=
  match inputFile with
  | some v =>
    if falsyFile v then AEvent.skipped a
    else
      match execute_assertion oc a with
      | Except.ok e => e
      | Except.error msg => AEvent.errorLogged a msg
  | none =>
    match execute_assertion oc a with
    | Except.ok e => e
    | Except.error msg => AEvent.errorLogged a msg

/-- analyze.py lines 181-279, the parameter bags of `execute_assertions` in
declared order: assertion name, and the `input-file` entry (`none`: no such
key; `some (locate f)`: the key is present and holds the result of
`find_output_file` on artifact `f`).  The four `SecurityToolFinding`
invocations come from the loop over the four SARIF artifact names. -/
def assertionDimensions (locate : String → Option String) :
    List (String × Option (Option String)) :=
  [("SecurityScorecard", none),
   ("SecurityAdvisory", none),
   ("Reproducible", none),
   ("SecurityToolFinding", some (locate "tool-semgrep.sarif")),
   ("SecurityToolFinding", some (locate "tool-devskim.sarif")),
   ("SecurityToolFinding", some (locate "tool-codeql-basic.javascript.sarif")),
   ("SecurityToolFinding", some (locate "tool-snyk-code.sarif")),
   ("ProgrammingLanguage", some (locate "tool-application-inspector.json")),
   ("Characteristic", some (locate "tool-application-inspector.json")),
   ("CryptoImplementation", some (locate "tool-oss-detect-cryptography.txt")),
   ("ClamAV", some (locate "tool-clamscan.txt")),
   ("Metadata", some (locate "tool-metadata-native.json"))]

/-- Runs the dimension list in order through `_execute_assertion_noexcept`;
`oracle i` is the behaviour of the i-th external call. -/
def runDimensions (oracle : Nat → Outcome) :
    Nat → List (String × Option (Option String)) → List AEvent
  | _, [] => []
  | i, d :: rest =>
    execute_assertion_noexcept (oracle i) d.1 d.2 :: runDimensions oracle (i + 1) rest

/-- analyze.py lines 181-279, `execute_assertions`: all twelve invocations
in declared order. -/
def execute_assertions (oracle : Nat → Outcome)
    (locate : String → Option String) : List AEvent :=
  runDimensions oracle 0 (assertionDimensions locate)

/-- The assertion name of an event. -/
def AEvent.name : AEvent → String
  | AEvent.skipped a => a
  | AEvent.invoked a _ => a
  | AEvent.errorLogged a _ => a

/-- Whether the event corresponds to an actual external invocation of the
assertion-generation utility. -/
def AEvent.isExternalInvocation : AEvent → Bool
  | AEvent.skipped _ => false
  | AEvent.invoked _ _ => true
  | AEvent.errorLogged _ _ => true

/-- One run of the container subprocess of `execute_docker_container`
(analyze.py lines 108-120): its exit code, the merged stdout+stderr stream
that is logged line by line, and the text the container actually wrote to
its stderr (merged into the stream because of `stderr=subprocess.STDOUT`). -/
structure ContainerRun where
  exitCode : Int
  outputLines : List String
  stderrText : String
deriving DecidableEq, Repr

/-- Python f-string interpolation of an optional string: `None` prints as
the four letters None. -/
def pyFormatOptStr : Option String → String
  | none => "None"
  | some s => s

/-- analyze.py lines 108-120, the tail of `execute_docker_container`: the
`Popen` is opened with `stderr=subprocess.STDOUT`, so its `stderr` attribute
is `None`; on a non-zero `res.wait()` the function raises
`RuntimeError(f"Error running docker container: {res.stderr}")`, which the
model returns as an error; otherwise the logged stream is returned. -/
def execute_docker_container (c : ContainerRun) : Except String (List String) :=
  let popenStderr : Option String := none
  if c.exitCode ≠ 0 then
    Except.error ("Error running docker container: " ++ pyFormatOptStr popenStderr)
  else
    Except.ok c.outputLines

/-- `kwargs.get(k)` over the kwargs dict modelled as an association list in
insertion order: `none` means the key is absent, `some v` means the key is
present with value `v` (itself `none` for Python `None`). -/
def lookupKw (kwargs : List (String × Option String)) (k : String) :
    Option (Option String) :=
  (kwargs.find? (fun kv => kv.1 = k)).map Prod.snd

/-- Python truthiness of an optional string: `None` and the empty string are
falsy. -/
def truthyStr : Option String → Bool
  | none => false
  | some s => s != ""

/-- analyze.py lines 146-151, the generic flag loop of `_execute_assertion`:
for every kwargs entry, `--key` followed by the value (the empty string for
`None`). -/
def genericFlags : List (String × Option String) → List String
  | [] => []
  | (k, v) :: rest =>
      ("--" ++ k) :: (match v with | none => "" | some s => s) :: genericFlags rest

/-- analyze.py lines 131-151, the command line constructed by
`_execute_assertion`: the base, the `--expiration=` flag when an expiration
was supplied (otherwise the computed default expiration is inserted into the
kwargs), the `--signer=` flag when the signer value is truthy, and the
generic flag loop over the (possibly extended) kwargs.  `defaultExpiration`
stands for the formatted `datetime.now() + timedelta(days=2*365)`. -/
def build_assertion_cmd (kwargs : List (String × Option String))
    (defaultExpiration : String) : List String :=
  let base := ["python", "oaf.py", "--verbose", "generate"]
  let expSupplied := (lookupKw kwargs "expiration").isSome
  let kwargs1 :=
    if expSupplied then kwargs else kwargs ++ [("expiration", some defaultExpiration)]
  let cmd1 :=
    if expSupplied then
      base ++ ["--expiration=" ++ pyFormatOptStr ((lookupKw kwargs "expiration").getD none)]
    else base
  let cmd2 :=
    if truthyStr ((lookupKw kwargs1 "signer").getD none) then
      cmd1 ++ ["--signer=" ++ pyFormatOptStr ((lookupKw kwargs1 "signer").getD none)]
    else cmd1
  cmd2 ++ genericFlags kwargs1

/-- Number of result rows stored for a subject. -/
def countForSubject (store : List PolicyEvaluationResult) (subject : String) : Nat :=
  (store.filter (fun r => r.subject = subject)).length

/-- Every two rows of the store that agree on (policy, subject) agree on
status. -/
def onePerPolicySubject (store : List PolicyEvaluationResult) : Bool :=
  store.all (fun a =>
    store.all (fun b =>
      !(a.policy == b.policy && a.subject == b.subject) || a.status == b.status))

/-! Helper lemmas (shared; none of them is a claim theorem). -/

/-- The name recorded by an event of `_execute_assertion_noexcept` is the
assertion name it was called with, whatever the outcome. -/
theorem execute_assertion_noexcept_name (oc : Outcome) (a : String)
    (inputFile : Option (Option String)) :
    (execute_assertion_noexcept oc a inputFile).name = a := by
  cases inputFile with
  | none => cases oc <;> simp [execute_assertion_noexcept, execute_assertion, AEvent.name]
  | some v =>
    by_cases h : falsyFile v <;> cases oc <;>
      simp [execute_assertion_noexcept, execute_assertion, AEvent.name, h]

/-- Indexing the event list produced by `runDimensions`. -/
theorem runDimensions_get? (oracle : Nat → Outcome) :
    ∀ (l : List (String × Option (Option String))) (j i : Nat),
      (runDimensions oracle j l).get? i =
        (l.get? i).map (fun d => execute_assertion_noexcept (oracle (j + i)) d.1 d.2) := by
  intro l
  induction l with
  | nil => intro j i; simp [runDimensions]
  | cons d rest ih =>
    intro j i
    cases i with
    | zero => simp [runDimensions]
    | succ n =>
      have := ih (j + 1) n
      simp only [runDimensions, List.get?_cons_succ, this]
      have harith : j + 1 + n = j + (n + 1) := by omega
      rw [harith]

/-- If the combined first walk finds nothing, the exact-only walk finds
nothing either. -/
theorem walkExact_none_of_walkExactThenGlob_none (fnm : String → String → Bool)
    (filename : String) :
    ∀ tree, walkExactThenGlob fnm filename tree = none →
      walkExact filename tree = none := by
  intro tree
  induction tree with
  | nil => intro _; rfl
  | cons e rest ih =>
    obtain ⟨root, files⟩ := e
    intro h
    simp only [walkExactThenGlob] at h
    simp only [walkExact]
    by_cases hc : filename ∈ files
    · simp [hc] at h
    · simp only [hc, if_false] at h ⊢
      cases hf : files.find? (fun f => fnm f filename) with
      | some f => rw [hf] at h; simp at h
      | none => rw [hf] at h; exact ih h

/-- Directories without any match are skipped by the first walk. -/
theorem walkExactThenGlob_append_no_match (fnm : String → String → Bool)
    (filename : String) (l : List (String × List String)) :
    ∀ pre, (∀ e ∈ pre, ¬ DirHasMatch fnm filename e) →
      walkExactThenGlob fnm filename (pre ++ l) = walkExactThenGlob fnm filename l := by
  intro pre
  induction pre with
  | nil => intro _; rfl
  | cons e rest ih =>
    obtain ⟨root, files⟩ := e
    intro h
    have he : ¬ DirHasMatch fnm filename (root, files) := h _ (List.mem_cons_self _ _)
    have hrest : ∀ e ∈ rest, ¬ DirHasMatch fnm filename e :=
      fun e hm => h e (List.mem_cons_of_mem _ hm)
    rw [DirHasMatch, not_or] at he
    obtain ⟨hc, ha⟩ := he
    push_neg at ha
    have hf : files.find? (fun f => fnm f filename) = none := by
      rw [List.find?_eq_none]
      intro x hx
      simpa using ha x hx
    simp only [List.cons_append, walkExactThenGlob, hc, if_false, hf]
    exact ih hrest

/-- A tree without any match makes the first walk return nothing. -/
theorem walkExactThenGlob_none_of_no_match (fnm : String → String → Bool)
    (filename : String) (tree : List (String × List String))
    (h : ∀ e ∈ tree, ¬ DirHasMatch fnm filename e) :
    walkExactThenGlob fnm filename tree = none := by
  have := walkExactThenGlob_append_no_match fnm filename [] tree h
  simpa using this

/-- After the first result is processed with the flag already set, the rest
of the loop is the clear-free loop. -/
theorem foldl_processResult_cleared (subject : String) :
    ∀ (rs : List RawResult) (st : RefreshState),
      (rs.foldl (processResult true subject) (st, true)).1 =
        processResultsNoClear subject rs st := by
  intro rs
  induction rs with
  | nil => intro st; rfl
  | cons r rest ih =>
    intro st
    have hstep : processResult true subject (st, true) r =
        (processResultNoClear subject st r, true) := by
      simp [processResult, processResultNoClear]
    simp only [List.foldl_cons, hstep, processResultsNoClear, List.foldl_cons]
    exact ih _

/-- The upsert never introduces a duplicate row. -/
theorem update_or_create_nodup (store : List PolicyEvaluationResult)
    (r : PolicyEvaluationResult) (h : store.Nodup) :
    (update_or_create store r).Nodup := by
  unfold update_or_create
  by_cases hc : r ∈ store
  · simp [hc, h]
  · rw [if_neg hc, List.nodup_append]
    refine ⟨h, List.nodup_singleton r, ?_⟩
    intro x hx hx1
    have hxr : x = r := by simpa using hx1
    subst hxr
    exact hc hx

/-- The bulk delete never introduces a duplicate row. -/
theorem deleteForSubject_nodup (store : List PolicyEvaluationResult)
    (subject : String) (h : store.Nodup) :
    (deleteForSubject store subject).Nodup :=
  h.filter _

/-- One loop iteration preserves freedom from duplicate rows. -/
theorem processResult_nodup (cf : Bool) (subject : String)
    (st : RefreshState) (b : Bool) (r : RawResult) (h : st.results.Nodup) :
    ((processResult cf subject (st, b) r).1).results.Nodup := by
  unfold processResult
  by_cases hcb : cf && !b
  · simp only [hcb, if_true]
    exact update_or_create_nodup _ _ (deleteForSubject_nodup _ _ h)
  · simp only [hcb, if_false]
    exact update_or_create_nodup _ _ h

/-- The whole loop preserves freedom from duplicate rows. -/
theorem foldl_processResult_nodup (cf : Bool) (subject : String) :
    ∀ (results : List RawResult) (st : RefreshState) (b : Bool),
      st.results.Nodup →
      ((results.foldl (processResult cf subject) (st, b)).1).results.Nodup := by
  intro results
  induction results with
  | nil => intro st b h; exact h
  | cons r rest ih =>
    intro st b h
    rw [List.foldl_cons]
    have h1 := processResult_nodup cf subject st b r h
    have h2 := ih (processResult cf subject (st, b) r).1
      (processResult cf subject (st, b) r).2 h1
    simpa using h2

/-! Claim theorems. -/

/-- Claim C1 (code bug): in a fan-out refresh over two package-URL subjects
in which the evaluator of the first subject exceeds its 2-hour timeout, the
timeout is logged and no upsert happens for that subject, but the
`TimeoutExpired` handler then evaluates `res.stdout` with `res` still
`None`, so an `AttributeError` escapes `refresh_policies` and the second
subject's refresh never runs, contradicting the claim that every remaining
subject still completes. -/
theorem C1_timeout_crashes_fanout :
    refresh_policies_all (fun out => if out = "[]" then some [] else none)
      (fun s => if s.identifier = "pkg:npm/a" then EvalOutcome.timeout
                else EvalOutcome.completed 0 "[]" "")
      false
      [⟨"pkg:npm/a", SubjectType.PACKAGE_URL⟩, ⟨"pkg:npm/b", SubjectType.PACKAGE_URL⟩]
      ⟨[], []⟩ =
      (["Timeout evaluating assertion"], ["pkg:npm/a"],
        Except.error (PyError.attributeError "NoneType object has no attribute stdout")) :=
  rfl

/-- Claim C2 (counterexample): querying the glob pattern for the SARIF
artifacts over a tree whose first directory holds only a glob match while a
later directory holds an exact-name match returns the glob match, so an
exact match existing somewhere in the tree is not always preferred. -/
theorem C2_counterexample :
    find_output_file globMatch
        [("wd", ["tool-x.sarif"]), ("wd/sub", ["tool-*.sarif"])] "tool-*.sarif" =
      some "wd/tool-x.sarif" ∧
    ("wd/sub", ["tool-*.sarif"]) ∈
        [("wd", ["tool-x.sarif"]), ("wd/sub", ["tool-*.sarif"])] ∧
    "tool-*.sarif" ∈ (["tool-*.sarif"] : List String) ∧
    "tool-x.sarif" ≠ "tool-*.sarif" := by
  refine ⟨by decide, by decide, by decide, by decide⟩

/-- Claim C2 (amended): `find_output_file` prefers an exact match only
within one directory: in the first directory of the walk that contains any
match it returns the exact match if that directory has one and otherwise
that directory's first glob match; and it returns null exactly when no
directory contains any match. -/
theorem C2_amended_per_directory_preference (fnm : String → String → Bool)
    (filename root : String) (files : List String)
    (pre rest : List (String × List String))
    (hpre : ∀ e ∈ pre, ¬ DirHasMatch fnm filename e)
    (hdir : DirHasMatch fnm filename (root, files)) :
    (find_output_file fnm (pre ++ (root, files) :: rest) filename =
      if filename ∈ files then some (joinPath root filename)
      else (files.find? (fun f => fnm f filename)).map (joinPath root)) ∧
    ∀ tree : List (String × List String),
      (∀ e ∈ tree, ¬ DirHasMatch fnm filename e) →
      find_output_file fnm tree filename = none := by
  constructor
  · have hw : walkExactThenGlob fnm filename (pre ++ (root, files) :: rest) =
        (if filename ∈ files then some (joinPath root filename)
         else (files.find? (fun f => fnm f filename)).map (joinPath root)) := by
      rw [walkExactThenGlob_append_no_match fnm filename ((root, files) :: rest) pre hpre]
      by_cases hc : filename ∈ files
      · simp [walkExactThenGlob, hc]
      · have hsome : (files.find? (fun f => fnm f filename)).isSome := by
          rcases hdir with hdir | ⟨f, hf, hff⟩
          · exact absurd hdir hc
          · exact List.find?_isSome.mpr ⟨f, hf, hff⟩
        obtain ⟨f, hf⟩ := Option.isSome_iff_exists.mp hsome
        simp [walkExactThenGlob, hc, hf]
    unfold find_output_file
    rw [hw]
    by_cases hc : filename ∈ files
    · simp [hc]
    · cases hf : files.find? (fun f => fnm f filename) with
      | some f => simp [hc, hf]
      | none =>
        rcases hdir with hdir | ⟨f, hfm, hff⟩
        · exact absurd hdir hc
        · exact absurd (List.find?_eq_none.mp hf f hfm) (by simp [hff])
  · intro tree htree
    have h1 := walkExactThenGlob_none_of_no_match fnm filename tree htree
    have h2 := walkExact_none_of_walkExactThenGlob_none fnm filename tree h1
    rw [find_output_file, h1, h2]

/-- Witness for the amended C2 theorem at a concrete tree. -/
theorem C2_amended_per_directory_preference_witness :
    (∀ e ∈ [("wd", ["other.txt"])], ¬ DirHasMatch globMatch "a.json" e) ∧
    DirHasMatch globMatch "a.json" ("wd/sub", ["a.json"]) ∧
    ((find_output_file globMatch
        ([("wd", ["other.txt"])] ++ ("wd/sub", ["a.json"]) :: []) "a.json" =
      if "a.json" ∈ ["a.json"] then some (joinPath "wd/sub" "a.json")
      else (List.find? (fun f => globMatch f "a.json") ["a.json"]).map (joinPath "wd/sub")) ∧
     ∀ tree, (∀ e ∈ tree, ¬ DirHasMatch globMatch "a.json" e) →
       find_output_file globMatch tree "a.json" = none) :=
  ⟨by decide, by decide,
   C2_amended_per_directory_preference globMatch "a.json" "wd/sub" ["a.json"]
     [("wd", ["other.txt"])] [] (by decide) (by decide)⟩

/-- Claim C3: status normalization is the pure table of policy.py lines
70-78 — `pass` after lower-casing and stripping gives PASSED, `fail` or
`failed` gives FAILED, any other non-empty stripped value gives
INDETERMINATE, and an empty or absent value gives UNKNOWN. -/
theorem C3_status_normalization (s : Option String) :
    (pyStrip (pyLower (s.getD "")) = "pass" → normalizeStatus s = Status.PASSED) ∧
    ((pyStrip (pyLower (s.getD "")) = "fail" ∨ pyStrip (pyLower (s.getD "")) = "failed") →
      normalizeStatus s = Status.FAILED) ∧
    ((pyStrip (pyLower (s.getD "")) ≠ "" ∧ pyStrip (pyLower (s.getD "")) ≠ "pass" ∧
      pyStrip (pyLower (s.getD "")) ≠ "fail" ∧ pyStrip (pyLower (s.getD "")) ≠ "failed") →
      normalizeStatus s = Status.INDETERMINATE) ∧
    (pyStrip (pyLower (s.getD "")) = "" → normalizeStatus s = Status.UNKNOWN) := by
  refine ⟨?_, ?_, ?_, ?_⟩
  · intro h; simp [normalizeStatus, h]
  · rintro (h | h) <;> simp [normalizeStatus, h]
  · rintro ⟨h1, h2, h3, h4⟩; simp [normalizeStatus, h1, h2, h3, h4]
  · intro h; simp [normalizeStatus, h]

/-- Witness for C3 at the concrete inputs of the claim. -/
theorem C3_status_normalization_witness :
    (pyStrip (pyLower ((some "PASS").getD "")) = "pass" ∧
      normalizeStatus (some "PASS") = Status.PASSED) ∧
    (pyStrip (pyLower ((some " Fail ").getD "")) = "fail" ∧
      normalizeStatus (some " Fail ") = Status.FAILED) ∧
    normalizeStatus (some "timeout") = Status.INDETERMINATE ∧
    normalizeStatus (some "") = Status.UNKNOWN ∧
    normalizeStatus none = Status.UNKNOWN :=
  ⟨⟨by decide, (C3_status_normalization (some "PASS")).1 (by decide)⟩,
   ⟨by decide, (C3_status_normalization (some " Fail ")).2.1 (Or.inl (by decide))⟩,
   (C3_status_normalization (some "timeout")).2.2.1
     ⟨by decide, by decide, by decide, by decide⟩,
   (C3_status_normalization (some "")).2.2.2 (by decide),
   (C3_status_normalization none).2.2.2 (by decide)⟩

/-- Claim C4: every run of `execute_assertions` attempts all twelve
invocations (the nine dimensions, the SecurityToolFinding one once per SARIF
artifact) in the declared order, each exactly once, whatever each external
invocation does (exit code or raised exception) and whatever the locator
returned — no failure aborts the remaining invocations. -/
theorem C4_all_invocations_attempted_in_order (oracle : Nat → Outcome)
    (locate : String → Option String) :
    (execute_assertions oracle locate).map AEvent.name =
      ["SecurityScorecard", "SecurityAdvisory", "Reproducible",
       "SecurityToolFinding", "SecurityToolFinding", "SecurityToolFinding",
       "SecurityToolFinding", "ProgrammingLanguage", "Characteristic",
       "CryptoImplementation", "ClamAV", "Metadata"] := by
  simp [execute_assertions, assertionDimensions, runDimensions,
    execute_assertion_noexcept_name]

/-- Claim C5: if the locator returned null for the artifact of an
artifact-dependent dimension, that dimension's event is the logged skip and
no external invocation happens for it, whatever the oracle does. -/
theorem C5_missing_artifact_skips (oracle : Nat → Outcome)
    (locate : String → Option String) (i : Nat) (a : String)
    (h : (assertionDimensions locate).get? i = some (a, some none)) :
    (execute_assertions oracle locate).get? i = some (AEvent.skipped a) ∧
    AEvent.isExternalInvocation (AEvent.skipped a) = false := by
  constructor
  · rw [execute_assertions, runDimensions_get? oracle (assertionDimensions locate) 0 i, h]
    simp [execute_assertion_noexcept, falsyFile]
  · rfl

/-- Witness for C5: with a locator that finds nothing, the fourth invocation
(the first SecurityToolFinding) is skipped. -/
theorem C5_missing_artifact_skips_witness :
    ((assertionDimensions (fun _ => none)).get? 3 =
      some ("SecurityToolFinding", some none)) ∧
    ((execute_assertions (fun _ => Outcome.exits 0) (fun _ => none)).get? 3 =
        some (AEvent.skipped "SecurityToolFinding") ∧
      AEvent.isExternalInvocation (AEvent.skipped "SecurityToolFinding") = false) :=
  ⟨by decide,
   C5_missing_artifact_skips (fun _ => Outcome.exits 0) (fun _ => none) 3
     "SecurityToolFinding" (by decide)⟩

/-- Claim C6: with the clear flag set and at least one parsed result, the
pass equals deleting the subject's pre-existing results once, up front,
before the first upsert, and then running the whole loop with no further
deletion; concretely, a subject with three pre-existing results and two new
parsed results ends the pass with exactly two results. -/
theorem C6_clear_once_before_first_upsert (subject : String) (st : RefreshState)
    (r : RawResult) (rs : List RawResult) :
    (processResults true subject (r :: rs) st =
      processResultsNoClear subject (r :: rs)
        ⟨st.policies, deleteForSubject st.results subject⟩) ∧
    countForSubject (processResults true "S"
        [⟨"q1", "Q1", some "pass"⟩, ⟨"q2", "Q2", some "fail"⟩]
        ⟨[], [⟨"p1", "S", Status.PASSED, evaluatedBy⟩,
              ⟨"p2", "S", Status.PASSED, evaluatedBy⟩,
              ⟨"p3", "S", Status.PASSED, evaluatedBy⟩]⟩).results "S" = 2 := by
  constructor
  · have h1 : processResult true subject (st, false) r =
        (processResultNoClear subject
          ⟨st.policies, deleteForSubject st.results subject⟩ r, true) := by
      simp [processResult, processResultNoClear]
    simp only [processResults, List.foldl_cons, h1]
    rw [foldl_processResult_cleared subject rs _]
    rfl
  · decide

/-- Claim C7 (counterexample): with the clear flag off and a store already
holding a PASSED row for (P, S), a parsed `fail` result for policy P leaves
the (P, S) pair with both a PASSED and a FAILED row — the upsert key
includes the status, so it does not enforce one status per (policy,
subject). -/
theorem C7_counterexample :
    (processResults false "S" [⟨"P", "PN", some "fail"⟩]
        ⟨[("P", "PN")], [⟨"P", "S", Status.PASSED, evaluatedBy⟩]⟩).results =
      [⟨"P", "S", Status.PASSED, evaluatedBy⟩,
       ⟨"P", "S", Status.FAILED, evaluatedBy⟩] ∧
    onePerPolicySubject (processResults false "S" [⟨"P", "PN", some "fail"⟩]
        ⟨[("P", "PN")], [⟨"P", "S", Status.PASSED, evaluatedBy⟩]⟩).results = false := by
  exact ⟨by decide, by decide⟩

/-- Claim C7 (amended): the upsert keyed on the full quadruple (policy,
subject, status, evaluated_by) never creates a second copy of an existing
row, so a refresh pass keeps the result store free of duplicate rows; it
does not enforce a single status per (policy, subject) pair. -/
theorem C7_amended_full_key_unique (clear_first : Bool) (subject : String)
    (results : List RawResult) (st : RefreshState) (h : st.results.Nodup) :
    (processResults clear_first subject results st).results.Nodup := by
  exact foldl_processResult_nodup clear_first subject results st false h

/-- Witness for the amended C7 theorem at a concrete store. -/
theorem C7_amended_full_key_unique_witness :
    ((RefreshState.mk [("P", "PN")] [⟨"P", "S", Status.PASSED, evaluatedBy⟩]).results.Nodup) ∧
    (processResults false "S" [⟨"P", "PN", some "fail"⟩]
        ⟨[("P", "PN")], [⟨"P", "S", Status.PASSED, evaluatedBy⟩]⟩).results.Nodup :=
  ⟨by simp,
   C7_amended_full_key_unique false "S" [⟨"P", "PN", some "fail"⟩]
     ⟨[("P", "PN")], [⟨"P", "S", Status.PASSED, evaluatedBy⟩]⟩ (by simp)⟩

/-- Claim C8 (code bug): on a non-zero container exit the error is raised
and propagated, but its message is always the constant
`Error running docker container: None` — the `Popen` was opened with
`stderr=subprocess.STDOUT`, so `res.stderr` is `None` and the captured
stderr text (here `boom`) never appears in the message. -/
theorem C8_error_message_lacks_stderr :
    (execute_docker_container ⟨1, ["log line"], "boom"⟩ =
      Except.error "Error running docker container: None") ∧
    ¬ List.IsInfix "boom".toList "Error running docker container: None".toList ∧
    ∀ (s : String) (lines : List String),
      execute_docker_container ⟨1, lines, s⟩ =
        Except.error "Error running docker container: None" :=
  ⟨rfl, by decide, fun _ _ => rfl⟩

/-- Claim C9: the trailing exact-only walk of `find_output_file` is dead
code — for every matcher, tree and query the function equals the variant
with the second walk removed, because the first walk only falls through a
directory after ruling out an exact match there. -/
theorem C9_second_walk_dead_code (fnm : String → String → Bool)
    (tree : List (String × List String)) (filename : String) :
    find_output_file fnm tree filename = find_output_file_single_walk fnm tree filename := by
  unfold find_output_file find_output_file_single_walk
  cases h : walkExactThenGlob fnm filename tree with
  | some p => rfl
  | none => rw [walkExact_none_of_walkExactThenGlob_none fnm filename tree h]

/-- Claim C10: with kwargs shaped like the `execute_assertions` call sites,
a truthy signer appears twice on the command line (once as `--signer=value`
and once as `--signer` followed by the value in the generic flag loop); an
explicitly supplied expiration likewise appears twice, while an omitted
expiration makes the computed default appear exactly once, via the generic
flag loop only. -/
theorem C10_signer_expiration_duplication (a s r g e d : String) (hg : g ≠ "") :
    (build_assertion_cmd
        [("assertion", some a), ("subject", some s), ("repository", some r),
         ("signer", some g)] d =
      ["python", "oaf.py", "--verbose", "generate", "--signer=" ++ g,
       "--assertion", a, "--subject", s, "--repository", r, "--signer", g,
       "--expiration", d]) ∧
    (build_assertion_cmd
        [("assertion", some a), ("subject", some s), ("repository", some r),
         ("signer", some g), ("expiration", some e)] d =
      ["python", "oaf.py", "--verbose", "generate", "--expiration=" ++ e,
       "--signer=" ++ g, "--assertion", a, "--subject", s, "--repository", r,
       "--signer", g, "--expiration", e]) := by
  have hg2 : (g == "") = false := by simpa using hg
  constructor <;>
    simp [build_assertion_cmd, lookupKw, genericFlags, truthyStr, pyFormatOptStr,
      List.find?, bne, hg2]

/-- Witness for C10 at concrete flag values. -/
theorem C10_signer_expiration_duplication_witness :
    (("me" : String) ≠ "") ∧
    (build_assertion_cmd
        [("assertion", some "A"), ("subject", some "S"), ("repository", some "R"),
         ("signer", some "me")] "D" =
      ["python", "oaf.py", "--verbose", "generate", "--signer=me",
       "--assertion", "A", "--subject", "S", "--repository", "R", "--signer", "me",
       "--expiration", "D"]) ∧
    (build_assertion_cmd
        [("assertion", some "A"), ("subject", some "S"), ("repository", some "R"),
         ("signer", some "me"), ("expiration", some "E")] "D" =
      ["python", "oaf.py", "--verbose", "generate", "--expiration=E",
       "--signer=me", "--assertion", "A", "--subject", "S", "--repository", "R",
       "--signer", "me", "--expiration", "E"]) :=
  ⟨by decide,
   (C10_signer_expiration_duplication "A" "S" "R" "me" "E" "D" (by decide)).1,
   (C10_signer_expiration_duplication "A" "S" "R" "me" "E" "D" (by decide)).2⟩

end AlphaOmega
